import Mathlib

/-!
Verification development for the Shield Rust integration client
(src/examples/rust/src/main.rs).

The development shallowly embeds:

* the wire data model (`ShieldRequest`, `ShieldResponse`, `ShieldResult`,
  `ShieldError`) together with the serde-derived serialization and
  deserialization behaviour (camelCase renaming, `skip_serializing_if`
  omission of `None` fields, `Option` fields defaulting to `None` when
  absent or `null`, duplicate known fields rejected, unknown fields
  ignored);
* a JSON syntax layer (`Json`, `parseJsonStr`, `jsonToString`) standing in
  for `serde_json::to_string` / `serde_json::from_slice`;
* the process transport `call_shield`, modelled as a function over an
  explicit OS-behaviour oracle (`OsBehavior`) that records the event trace
  (spawn / write / close / read / wait / parse) and the final outcome.

Captured output is modelled as a `String`; the `duration` and `exitCode`
oracle fields describe the child process's behaviour and are deliberately
available to the model so that theorems can state whether the client
inspects them.
-/

/-- JSON values. Number literals keep their raw lexeme: the Shield schema
never decodes numbers, so only their syntactic validity matters. -/
inductive Json where
  | null
  | bool (b : Bool)
  | num (raw : String)
  | str (s : String)
  | arr (elems : List Json)
  | obj (fields : List (String × Json))

/-- Whitespace accepted between JSON tokens. -/
def isJsonWs (c : Char) : Bool :=
  c == ' ' || c == '\t' || c == '\n' || c == '\r'

/-- Drop leading JSON whitespace. -/
def skipWs : List Char → List Char
  | [] => []
  | c :: cs => if isJsonWs c then skipWs cs else c :: cs

/-- Value of one hex digit, if the character is one. -/
def hexDigitVal (c : Char) : Option Nat :=
  if '0' ≤ c ∧ c ≤ '9' then some (c.toNat - '0'.toNat)
  else if 'a' ≤ c ∧ c ≤ 'f' then some (c.toNat - 'a'.toNat + 10)
  else if 'A' ≤ c ∧ c ≤ 'F' then some (c.toNat - 'A'.toNat + 10)
  else none

/-- Body of a JSON string after the opening quote: handles the escape
sequences serde_json accepts, including surrogate pairs, and rejects raw
control characters and lone surrogates. Returns the decoded string and the
input remaining after the closing quote. -/
def parseStringBody : Nat → List Char → List Char → Option (String × List Char)
  | 0, _, _ => none
  | _ + 1, [], _ => none
  | fuel + 1, c :: rest, acc =>
    if c = '"' then some (String.mk acc.reverse, rest)
    else if c = '\\' then
      match rest with
      | [] => none
      | e :: rest2 =>
        if e = '"' then parseStringBody fuel rest2 ('"' :: acc)
        else if e = '\\' then parseStringBody fuel rest2 ('\\' :: acc)
        else if e = '/' then parseStringBody fuel rest2 ('/' :: acc)
        else if e = 'b' then parseStringBody fuel rest2 (Char.ofNat 8 :: acc)
        else if e = 'f' then parseStringBody fuel rest2 (Char.ofNat 12 :: acc)
        else if e = 'n' then parseStringBody fuel rest2 ('\n' :: acc)
        else if e = 'r' then parseStringBody fuel rest2 ('\r' :: acc)
        else if e = 't' then parseStringBody fuel rest2 ('\t' :: acc)
        else if e = 'u' then
          match rest2 with
          | h1 :: h2 :: h3 :: h4 :: rest3 =>
            match hexDigitVal h1, hexDigitVal h2, hexDigitVal h3, hexDigitVal h4 with
            | some a, some b, some c2, some d =>
              let n := a * 4096 + b * 256 + c2 * 16 + d
              if 0xD800 ≤ n ∧ n ≤ 0xDBFF then
                match rest3 with
                | '\\' :: 'u' :: g1 :: g2 :: g3 :: g4 :: rest4 =>
                  match hexDigitVal g1, hexDigitVal g2, hexDigitVal g3, hexDigitVal g4 with
                  | some a2, some b2, some c3, some d2 =>
                    let m := a2 * 4096 + b2 * 256 + c3 * 16 + d2
                    if 0xDC00 ≤ m ∧ m ≤ 0xDFFF then
                      parseStringBody fuel rest4
                        (Char.ofNat (0x10000 + (n - 0xD800) * 1024 + (m - 0xDC00)) :: acc)
                    else none
                  | _, _, _, _ => none
                | _ => none
              else if 0xDC00 ≤ n ∧ n ≤ 0xDFFF then none
              else parseStringBody fuel rest3 (Char.ofNat n :: acc)
            | _, _, _, _ => none
          | _ => none
        else none
    else if c.toNat < 32 then none
    else parseStringBody fuel rest (c :: acc)

/-- Longest prefix of decimal digits. -/
def digitsPrefix : List Char → List Char × List Char
  | [] => ([], [])
  | c :: cs =>
    if c.isDigit then
      let (ds, r) := digitsPrefix cs
      (c :: ds, r)
    else ([], c :: cs)

/-- Optional fraction part of a JSON number. -/
def parseFrac : List Char → Option (List Char × List Char)
  | '.' :: cs =>
    match digitsPrefix cs with
    | ([], _) => none
    | (ds, r) => some ('.' :: ds, r)
  | cs => some ([], cs)

/-- Optional exponent part of a JSON number. -/
def parseExp : List Char → Option (List Char × List Char)
  | [] => some ([], [])
  | c :: cs =>
    if c == 'e' || c == 'E' then
      let (sgn, cs1) :=
        match cs with
        | '+' :: r => (['+'], r)
        | '-' :: r => (['-'], r)
        | _ => ([], cs)
      match digitsPrefix cs1 with
      | ([], _) => none
      | (ds, r) => some (c :: (sgn ++ ds), r)
    else some ([], c :: cs)

/-- Fraction and exponent after the integer part of a JSON number. -/
def numTail (sgn intPart cs : List Char) : Option (List Char × List Char) :=
  match parseFrac cs with
  | none => none
  | some (fr, cs2) =>
    match parseExp cs2 with
    | none => none
    | some (ex, cs3) => some (sgn ++ intPart ++ fr ++ ex, cs3)

/-- JSON number lexeme (RFC 8259 grammar: optional minus, no leading
zeros, optional fraction and exponent). -/
def parseNumberChars (cs : List Char) : Option (List Char × List Char) :=
  let (sgn, cs1) :=
    match cs with
    | '-' :: r => (['-'], r)
    | _ => ([], cs)
  match cs1 with
  | [] => none
  | c :: r =>
    if c = '0' then numTail sgn ['0'] r
    else if c.isDigit then
      let (ds, r2) := digitsPrefix r
      numTail sgn (c :: ds) r2
    else none

mutual

/-- Recursive-descent JSON value parser (embeds serde_json's grammar);
fuel bounds the recursion depth. -/
def parseValue : Nat → List Char → Option (Json × List Char)
  | 0, _ => none
  | fuel + 1, cs =>
    match skipWs cs with
    | [] => none
    | 't' :: 'r' :: 'u' :: 'e' :: rest => some (Json.bool true, rest)
    | 'f' :: 'a' :: 'l' :: 's' :: 'e' :: rest => some (Json.bool false, rest)
    | 'n' :: 'u' :: 'l' :: 'l' :: rest => some (Json.null, rest)
    | '"' :: rest =>
      match parseStringBody (rest.length + 1) rest [] with
      | some (s, r) => some (Json.str s, r)
      | none => none
    | '[' :: rest =>
      (match skipWs rest with
       | ']' :: r2 => some (Json.arr [], r2)
       | _ =>
         match parseElems fuel rest with
         | some (xs, r2) => some (Json.arr xs, r2)
         | none => none)
    | '\x7b' :: rest =>
      (match skipWs rest with
       | '\x7d' :: r2 => some (Json.obj [], r2)
       | _ =>
         match parseMembers fuel rest with
         | some (kvs, r2) => some (Json.obj kvs, r2)
         | none => none)
    | c :: rest =>
      if c == '-' || c.isDigit then
        match parseNumberChars (c :: rest) with
        | some (lex, r) => some (Json.num (String.mk lex), r)
        | none => none
      else none

/-- Non-empty comma-separated array elements up to the closing bracket. -/
def parseElems : Nat → List Char → Option (List Json × List Char)
  | 0, _ => none
  | fuel + 1, cs =>
    match parseValue fuel cs with
    | none => none
    | some (v, r) =>
      match skipWs r with
      | ',' :: r2 =>
        (match parseElems fuel r2 with
         | some (vs, r3) => some (v :: vs, r3)
         | none => none)
      | ']' :: r2 => some ([v], r2)
      | _ => none

/-- Non-empty comma-separated object members up to the closing brace. -/
def parseMembers : Nat → List Char → Option (List (String × Json) × List Char)
  | 0, _ => none
  | fuel + 1, cs =>
    match skipWs cs with
    | '"' :: rest =>
      (match parseStringBody (rest.length + 1) rest [] with
       | none => none
       | some (k, r) =>
         match skipWs r with
         | ':' :: r2 =>
           (match parseValue fuel r2 with
            | none => none
            | some (v, r3) =>
              match skipWs r3 with
              | ',' :: r4 =>
                (match parseMembers fuel r4 with
                 | some (kvs, r5) => some ((k, v) :: kvs, r5)
                 | none => none)
              | '\x7d' :: r4 => some ([(k, v)], r4)
              | _ => none)
         | _ => none)
    | _ => none

end

/-- Whole-input JSON parse: one value, optionally surrounded by
whitespace, nothing else — the acceptance condition of
`serde_json::from_slice`. -/
def parseJsonStr (s : String) : Option Json :=
  let cs := s.toList
  match parseValue (2 * cs.length + 2) cs with
  | some (v, rest) => if (skipWs rest).isEmpty then some v else none
  | none => none

/-- Embeds `struct ShieldRequest` (main.rs lines 12-23): `api_version` and
`operation` are required strings; the three operation-specific fields are
`Option<String>` with `skip_serializing_if = "Option::is_none"`. -/
structure ShieldRequest where
  api_version : String
  operation : String
  yield_id : Option String
  unsigned_transaction : Option String
  user_address : Option String
deriving DecidableEq

/-- Embeds `struct ShieldResult` (main.rs lines 33-40): all four fields
are independently optional. -/
structure ShieldResult where
  is_valid : Option Bool
  reason : Option String
  detected_type : Option String
  yield_ids : Option (List String)
deriving DecidableEq

/-- Embeds `struct ShieldError` (main.rs lines 42-46): both fields
required. -/
structure ShieldError where
  code : String
  message : String
deriving DecidableEq

/-- Embeds `struct ShieldResponse` (main.rs lines 25-31): `ok` is a
required boolean, while `result` and `error` are two independently
optional struct fields — not a tagged union. -/
structure ShieldResponse where
  ok : Bool
  result : Option ShieldResult
  error : Option ShieldError
deriving DecidableEq

/-- serde field lookup for a known (typed) struct field: absent is fine
(`.ok none`), one occurrence returns the value, a duplicate occurrence of
a known field is a deserialization error. Unknown fields are never looked
up, matching serde's default of ignoring them. -/
def lookupKnown (kvs : List (String × Json)) (k : String) : Except Unit (Option Json) :=
  match kvs.filter (fun p => p.1 == k) with
  | [] => Except.ok none
  | [p] => Except.ok (some p.2)
  | _ => Except.error ()

/-- serde decoding of a JSON value into `bool`. -/
def asBool : Json → Except Unit Bool
  | Json.bool b => Except.ok b
  | _ => Except.error ()

/-- serde decoding of a JSON value into `String`. -/
def asString : Json → Except Unit String
  | Json.str s => Except.ok s
  | _ => Except.error ()

/-- serde decoding of a JSON value into `Vec<String>`. -/
def asStringList : Json → Except Unit (List String)
  | Json.arr xs => xs.mapM asString
  | _ => Except.error ()

/-- serde decoding of an `Option<T>` struct field: absent or `null` gives
`None`, otherwise the value must decode as `T`. -/
def decodeOptField (p : Json → Except Unit α) : Option Json → Except Unit (Option α)
  | none => Except.ok none
  | some Json.null => Except.ok none
  | some j =>
    match p j with
    | Except.ok v => Except.ok (some v)
    | Except.error e => Except.error e

/-- serde-derived `Deserialize` for `ShieldResult`: reads exactly the
camelCase keys `isValid`, `reason`, `detectedType`, `yieldIds`; every
field optional. -/
def parseShieldResult : Json → Except Unit ShieldResult
  | Json.obj kvs =>
    match lookupKnown kvs "isValid" with
    | Except.error _ => Except.error ()
    | Except.ok ivF =>
      match decodeOptField asBool ivF with
      | Except.error _ => Except.error ()
      | Except.ok iv =>
        match lookupKnown kvs "reason" with
        | Except.error _ => Except.error ()
        | Except.ok rF =>
          match decodeOptField asString rF with
          | Except.error _ => Except.error ()
          | Except.ok rs =>
            match lookupKnown kvs "detectedType" with
            | Except.error _ => Except.error ()
            | Except.ok dtF =>
              match decodeOptField asString dtF with
              | Except.error _ => Except.error ()
              | Except.ok dt =>
                match lookupKnown kvs "yieldIds" with
                | Except.error _ => Except.error ()
                | Except.ok yF =>
                  match decodeOptField asStringList yF with
                  | Except.error _ => Except.error ()
                  | Except.ok ys => Except.ok ⟨iv, rs, dt, ys⟩
  | _ => Except.error ()

/-- serde-derived `Deserialize` for `ShieldError`: `code` and `message`
are required string fields (their snake_case and camelCase forms
coincide). -/
def parseShieldError : Json → Except Unit ShieldError
  | Json.obj kvs =>
    match lookupKnown kvs "code" with
    | Except.ok (some cJ) =>
      (match asString cJ with
       | Except.error _ => Except.error ()
       | Except.ok c =>
         match lookupKnown kvs "message" with
         | Except.ok (some mJ) =>
           (match asString mJ with
            | Except.error _ => Except.error ()
            | Except.ok m => Except.ok ⟨c, m⟩)
         | _ => Except.error ())
    | _ => Except.error ()
  | _ => Except.error ()

/-- serde-derived `Deserialize` for `ShieldResponse`: `ok` is required,
`result` and `error` are decoded independently of `ok` and of each
other. -/
def parseShieldResponse : Json → Except Unit ShieldResponse
  | Json.obj kvs =>
    match lookupKnown kvs "ok" with
    | Except.ok (some okJ) =>
      (match asBool okJ with
       | Except.error _ => Except.error ()
       | Except.ok okb =>
         match lookupKnown kvs "result" with
         | Except.error _ => Except.error ()
         | Except.ok resF =>
           match decodeOptField parseShieldResult resF with
           | Except.error _ => Except.error ()
           | Except.ok res =>
             match lookupKnown kvs "error" with
             | Except.error _ => Except.error ()
             | Except.ok errF =>
               match decodeOptField parseShieldError errF with
               | Except.error _ => Except.error ()
               | Except.ok err => Except.ok ⟨okb, res, err⟩)
    | _ => Except.error ()
  | _ => Except.error ()

/-- The Response Codec of the client (main.rs line 59):
`serde_json::from_slice::<ShieldResponse>` on the captured output.
Syntactically invalid JSON and schema violations both surface as the
client-side error (`?`-propagated in the source). -/
def deserializeShieldResponse (s : String) : Except Unit ShieldResponse :=
  match parseJsonStr s with
  | none => Except.error ()
  | some j => parseShieldResponse j

/-- One optional request field under `skip_serializing_if`: `None`
contributes nothing to the serialized object. -/
def optStrField (key : String) : Option String → List (String × Json)
  | none => []
  | some s => [(key, Json.str s)]

/-- serde-derived `Serialize` for `ShieldRequest` with
`rename_all = "camelCase"`: fields in declaration order, `None` fields
omitted (never emitted as `null`). -/
def serializeShieldRequest (r : ShieldRequest) : Json :=
  Json.obj ([("apiVersion", Json.str r.api_version), ("operation", Json.str r.operation)]
    ++ optStrField "yieldId" r.yield_id
    ++ optStrField "unsignedTransaction" r.unsigned_transaction
    ++ optStrField "userAddress" r.user_address)

/-- Top-level keys of a JSON object. -/
def objKeys : Json → List String
  | Json.obj kvs => kvs.map Prod.fst
  | _ => []

/-- Whether a JSON object has an `ok` member. -/
def jsonHasOkKey : Json → Bool
  | Json.obj kvs => kvs.any (fun p => p.1 == "ok")
  | _ => false

/-- serde_json string escaping: quote, backslash and control characters
are escaped (short forms for \b \t \n \f \r, `\u00XX` otherwise); nothing
else is. -/
def escapeJsonChar (c : Char) : String :=
  if c = '"' then "\\\""
  else if c = '\\' then "\\\\"
  else if c.toNat = 8 then "\\b"
  else if c = '\t' then "\\t"
  else if c = '\n' then "\\n"
  else if c.toNat = 12 then "\\f"
  else if c = '\r' then "\\r"
  else if c.toNat < 32 then
    "\\u00" ++ String.mk [(Nat.digitChar (c.toNat / 16)), (Nat.digitChar (c.toNat % 16))]
  else String.singleton c

/-- A JSON string literal with its quotes. -/
def quoteJsonString (s : String) : String :=
  "\"" ++ String.join (s.toList.map escapeJsonChar) ++ "\""

mutual

/-- Compact JSON rendering, as produced by `serde_json::to_string`. -/
def jsonToString : Json → String
  | Json.null => "null"
  | Json.bool true => "true"
  | Json.bool false => "false"
  | Json.num raw => raw
  | Json.str s => quoteJsonString s
  | Json.arr xs => "[" ++ jsonElemsToString xs ++ "]"
  | Json.obj kvs => "\x7b" ++ jsonMembersToString kvs ++ "\x7d"

/-- Comma-separated rendering of array elements. -/
def jsonElemsToString : List Json → String
  | [] => ""
  | [j] => jsonToString j
  | j :: js => jsonToString j ++ "," ++ jsonElemsToString js

/-- Comma-separated rendering of object members. -/
def jsonMembersToString : List (String × Json) → String
  | [] => ""
  | [(k, v)] => quoteJsonString k ++ ":" ++ jsonToString v
  | (k, v) :: kvs => quoteJsonString k ++ ":" ++ jsonToString v ++ "," ++ jsonMembersToString kvs

end

/-- Configuration of a child standard stream (`std::process::Stdio`). -/
inductive PipeConfig where
  | piped
  | inherited
deriving DecidableEq

/-- Handles of a successfully spawned child: per the `std::process`
contract, a stream handle is present exactly when the stream was
configured as a pipe at spawn time. -/
structure ChildHandles where
  stdin : Option Unit
  stdout : Option Unit

/-- The `std::process::Command::spawn` contract on handles. -/
def spawnChildHandles (stdinCfg stdoutCfg : PipeConfig) : ChildHandles :=
  { stdin := match stdinCfg with | PipeConfig.piped => some () | _ => none,
    stdout := match stdoutCfg with | PipeConfig.piped => some () | _ => none }

/-- Environment oracle for one `call_shield` invocation: whether each OS
interaction succeeds, and the child's behaviour (its full stdout, its
exit code, and how long it runs). -/
structure OsBehavior where
  spawnOk : Bool
  writeOk : Bool
  waitOk : Bool
  exitCode : Int
  stdout : String
  duration : Nat

/-- Observable transport events of one invocation, in order. -/
inductive Event where
  | spawn (path : String) (stdinCfg stdoutCfg : PipeConfig)
  | writeStdin (data : String)
  | closeStdin
  | readStdoutToEnd
  | waitExit
  | killChild
  | parseOutput (data : String)
deriving DecidableEq

/-- Outcome of `call_shield`: `Ok(response)` or the `?`-propagated error
of the step that failed (spawn, stdin write, read/wait, JSON parse), or a
panic (which the source could only reach through the `unwrap` on the
stdin handle). -/
inductive CallResult where
  | ok (r : ShieldResponse)
  | errSpawn
  | errWrite
  | errWait
  | errParse
  | panicked
deriving DecidableEq

/-- Whether a call outcome is the stdin-unwrap panic. -/
def CallResult.isPanicked : CallResult → Bool
  | CallResult.panicked => true
  | _ => false

/-- Whether a trace ever forcibly terminates the child. -/
def traceHasKill (t : List Event) : Bool :=
  t.any fun e =>
    match e with
    | Event.killChild => true
    | _ => false

/-- Embeds `call_shield` (main.rs lines 48-62) over the oracle `os`:
serialize the request, spawn the child with both streams piped, write the
serialized request to the child's stdin (unwrap of the handle), then
`wait_with_output` (drops stdin — closing it —, reads stdout to end and
waits for exit), and finally `serde_json::from_slice` on the captured
stdout. The returned trace lists the performed transport events in
order. -/
def call_shield (os : OsBehavior) (shield_path : String) (request : ShieldRequest) :
    List Event × CallResult :=
  let input := jsonToString (serializeShieldRequest request)
  let evs0 := [Event.spawn shield_path PipeConfig.piped PipeConfig.piped]
  if os.spawnOk then
    match (spawnChildHandles PipeConfig.piped PipeConfig.piped).stdin with
    | none => (evs0, CallResult.panicked)
    | some _ =>
      let evs1 := evs0 ++ [Event.writeStdin input]
      if os.writeOk then
        let evs2 := evs1 ++ [Event.closeStdin, Event.readStdoutToEnd, Event.waitExit]
        if os.waitOk then
          let evs3 := evs2 ++ [Event.parseOutput os.stdout]
          match deserializeShieldResponse os.stdout with
          | Except.ok r => (evs3, CallResult.ok r)
          | Except.error _ => (evs3, CallResult.errParse)
        else (evs2, CallResult.errWait)
      else (evs1, CallResult.errWrite)
  else (evs0, CallResult.errSpawn)

/-- The request of Example 1 in `main` (main.rs lines 66-72). -/
def reqGetYields : ShieldRequest :=
  { api_version := "1.0", operation := "getSupportedYieldIds",
    yield_id := none, unsigned_transaction := none, user_address := none }

/-- A `validate` request with all three operation-specific fields
missing. -/
def reqValidateMissing : ShieldRequest :=
  { api_version := "1.0", operation := "validate",
    yield_id := none, unsigned_transaction := none, user_address := none }

/-- A well-formed success payload for `getSupportedYieldIds`. -/
def okYieldsOutput : String :=
  "\x7b\"ok\":true,\"result\":\x7b\"yieldIds\":[\"a\",\"b\"]\x7d\x7d"

/-- Oracle in which every OS interaction succeeds, the child exits 0
quickly and prints `okYieldsOutput`. -/
def osAllOk : OsBehavior :=
  { spawnOk := true, writeOk := true, waitOk := true,
    exitCode := 0, stdout := okYieldsOutput, duration := 1 }

/-- Oracle identical to `osAllOk` except that the child exits with the
non-zero status 1. -/
def osNonZeroExit : OsBehavior :=
  { osAllOk with exitCode := 1 }

/-- Oracle identical to `osAllOk` except that the child runs for an
arbitrarily long time (a billion time units) before exiting. -/
def osSlowChild : OsBehavior :=
  { osAllOk with duration := 1000000000 }

/-- The parsed `ShieldResponse` corresponding to `okYieldsOutput`. -/
def okYieldsResponse : ShieldResponse :=
  { ok := true,
    result := some { is_valid := none, reason := none, detected_type := none,
                     yield_ids := some ["a", "b"] },
    error := none }

/-- Response object with `ok` set to `okFlag` and with the `result` /
`error` members present or absent according to the two flags — used to
exercise every presence combination against the codec. -/
def mkRespJson (okFlag rp ep : Bool) : Json :=
  Json.obj ([("ok", Json.bool okFlag)]
    ++ (if rp then [("result", Json.obj [])] else [])
    ++ (if ep then
          [("error", Json.obj [("code", Json.str "c"), ("message", Json.str "m")])]
        else []))

/-- Helper: a key that occurs nowhere in an object's members filters to
the empty list. -/
theorem filter_key_nil (k : String) : ∀ (kvs : List (String × Json)),
    kvs.any (fun p => p.1 == k) = false →
    kvs.filter (fun p => p.1 == k) = [] := by
  intro kvs
  induction kvs with
  | nil => intro _; rfl
  | cons q t ih =>
    intro h
    simp only [List.any_cons, Bool.or_eq_false_iff] at h
    simp [List.filter_cons, h.1, ih h.2]

/-- Helper: serde field lookup of an absent known field yields `none`
(the field is left at its default) rather than an error. -/
theorem lookupKnown_all_absent (kvs : List (String × Json)) (k : String)
    (h : kvs.any (fun p => p.1 == k) = false) :
    lookupKnown kvs k = Except.ok none := by
  unfold lookupKnown
  rw [filter_key_nil k kvs h]

/-- Claim C1, counterexample: a `validate` call with `yieldId`,
`unsignedTransaction` and `userAddress` all missing does not fail with
any client-side error — the child process is spawned (the transport is
invoked) and, when the validator answers normally, the call even
succeeds. -/
theorem c1_counterexample :
    reqValidateMissing.operation = "validate" ∧
    reqValidateMissing.yield_id = none ∧
    reqValidateMissing.unsigned_transaction = none ∧
    reqValidateMissing.user_address = none ∧
    (call_shield osAllOk "./shield" reqValidateMissing).1.head? =
      some (Event.spawn "./shield" PipeConfig.piped PipeConfig.piped) ∧
    (call_shield osAllOk "./shield" reqValidateMissing).2 = CallResult.ok okYieldsResponse :=
  ⟨rfl, rfl, rfl, rfl, rfl, rfl⟩

/-- Claim C1, amended: the client performs no request validation and has
no `InvalidRequest` outcome; for every request — including `validate`
requests with missing or empty required fields — the very first transport
event is the spawn of the validator child process. -/
theorem c1_no_request_validation (os : OsBehavior) (path : String) (req : ShieldRequest) :
    (call_shield os path req).1.head? =
      some (Event.spawn path PipeConfig.piped PipeConfig.piped) := by
  cases h1 : os.spawnOk <;> cases h2 : os.writeOk <;> cases h3 : os.waitOk <;>
    cases hd : deserializeShieldResponse os.stdout <;>
    simp [call_shield, h1, h2, h3, hd, spawnChildHandles]

/-- Claim C2, counterexample: deserialization does not enforce the
presence rules — the output `\x7b"ok":true\x7d` (neither `result` nor
`error` populated) is accepted, and so is an output in which both are
populated while `ok` is `false`. -/
theorem c2_counterexample :
    deserializeShieldResponse "\x7b\"ok\":true\x7d" =
      Except.ok { ok := true, result := none, error := none } ∧
    deserializeShieldResponse
        "\x7b\"ok\":false,\"result\":\x7b\x7d,\"error\":\x7b\"code\":\"c\",\"message\":\"m\"\x7d\x7d" =
      Except.ok { ok := false,
                  result := some { is_valid := none, reason := none,
                                   detected_type := none, yield_ids := none },
                  error := some { code := "c", message := "m" } } :=
  ⟨rfl, rfl⟩

/-- Claim C2, amended: the codec's outcome is two-way (a decoded
`ShieldResponse` or a client-side error), and `result` / `error` are
decoded as independent optional fields: for every value of `ok` and every
combination of presence of `result` and `error`, decoding succeeds and
populates exactly the members that are present — no combination is
rejected and nothing prevents reading `result` on an error response. -/
theorem c2_presence_not_enforced (okFlag rp ep : Bool) :
    parseShieldResponse (mkRespJson okFlag rp ep) =
      Except.ok { ok := okFlag,
                  result := if rp then
                      some { is_valid := none, reason := none,
                             detected_type := none, yield_ids := none }
                    else none,
                  error := if ep then some { code := "c", message := "m" } else none } := by
  cases okFlag <;> cases rp <;> cases ep <;> rfl

/-- Claim C3: optional request fields that are unset are omitted from the
serialized object — the emitted keys are exactly the two mandatory ones
plus one key per populated optional field, and a request with all
optional fields unset (the well-formed `getSupportedYieldIds` shape)
serializes to an object containing only `apiVersion` and `operation`,
with no `null` member ever emitted. -/
theorem c3_absent_fields_omitted :
    (∀ (r : ShieldRequest),
      objKeys (serializeShieldRequest r) =
        ["apiVersion", "operation"]
          ++ (match r.yield_id with | some _ => ["yieldId"] | none => [])
          ++ (match r.unsigned_transaction with | some _ => ["unsignedTransaction"] | none => [])
          ++ (match r.user_address with | some _ => ["userAddress"] | none => [])) ∧
    (∀ (av op : String),
      serializeShieldRequest
          { api_version := av, operation := op, yield_id := none,
            unsigned_transaction := none, user_address := none } =
        Json.obj [("apiVersion", Json.str av), ("operation", Json.str op)]) := by
  constructor
  · intro r
    obtain ⟨av, op, y, u, ua⟩ := r
    cases y <;> cases u <;> cases ua <;> rfl
  · intro av op
    rfl

/-- Claim C4: captured output that is not valid JSON, or that is valid
JSON without an `ok` member, makes the codec return the client-side
error outcome — never a decoded response. (The codec is a total
function, so no panic is possible.) -/
theorem c4_codec_rejects_invalid (s : String) :
    (parseJsonStr s = none → deserializeShieldResponse s = Except.error ()) ∧
    (∀ j, parseJsonStr s = some j → jsonHasOkKey j = false →
      deserializeShieldResponse s = Except.error ()) := by
  constructor
  · intro h
    simp [deserializeShieldResponse, h]
  · intro j hp hok
    simp only [deserializeShieldResponse, hp]
    cases j with
    | obj kvs =>
      simp only [jsonHasOkKey] at hok
      have hl := lookupKnown_all_absent kvs "ok" hok
      simp [parseShieldResponse, hl]
    | null => rfl
    | bool b => rfl
    | num raw => rfl
    | str s2 => rfl
    | arr xs => rfl

/-- Claim C4, witness: the codec rejects the non-JSON output `not json`
and the valid-JSON-without-`ok` output `\x7b\x7d`. -/
theorem c4_codec_rejects_invalid_witness :
    deserializeShieldResponse "not json" = Except.error () ∧
    deserializeShieldResponse "\x7b\x7d" = Except.error () :=
  ⟨(c4_codec_rejects_invalid "not json").1 rfl,
   (c4_codec_rejects_invalid "\x7b\x7d").2 (Json.obj []) rfl rfl⟩

/-- Claim C5: whenever the OS interactions succeed, one call performs
exactly the sequence spawn (both streams piped) → write the whole
serialized request to stdin → close stdin → read stdout to end → wait for
exit → parse, and parsing receives the full captured output only after
the read and wait have completed. -/
theorem c5_transport_sequence (os : OsBehavior) (path : String) (req : ShieldRequest)
    (h1 : os.spawnOk = true) (h2 : os.writeOk = true) (h3 : os.waitOk = true) :
    call_shield os path req =
      ([Event.spawn path PipeConfig.piped PipeConfig.piped,
        Event.writeStdin (jsonToString (serializeShieldRequest req)),
        Event.closeStdin, Event.readStdoutToEnd, Event.waitExit,
        Event.parseOutput os.stdout],
       match deserializeShieldResponse os.stdout with
       | Except.ok r => CallResult.ok r
       | Except.error _ => CallResult.errParse) := by
  cases hd : deserializeShieldResponse os.stdout <;>
    simp [call_shield, h1, h2, h3, hd, spawnChildHandles]

/-- Claim C5, witness: the Example-1 call under the all-success oracle
performs the six-step sequence with the concrete serialized request and
ends in the parsed success response. -/
theorem c5_transport_sequence_witness :
    osAllOk.spawnOk = true ∧ osAllOk.writeOk = true ∧ osAllOk.waitOk = true ∧
    call_shield osAllOk "./shield" reqGetYields =
      ([Event.spawn "./shield" PipeConfig.piped PipeConfig.piped,
        Event.writeStdin "\x7b\"apiVersion\":\"1.0\",\"operation\":\"getSupportedYieldIds\"\x7d",
        Event.closeStdin, Event.readStdoutToEnd, Event.waitExit,
        Event.parseOutput okYieldsOutput],
       CallResult.ok okYieldsResponse) :=
  ⟨rfl, rfl, rfl,
   (c5_transport_sequence osAllOk "./shield" reqGetYields rfl rfl rfl).trans (by rfl)⟩

/-- Claim C6, counterexample: a child that exits with the non-zero status
1 while printing a well-formed success payload does not make the call
fail with `ProcessFailure` — the exit status is never inspected and the
call succeeds. -/
theorem c6_counterexample :
    osNonZeroExit.exitCode = 1 ∧
    (call_shield osNonZeroExit "./shield" reqGetYields).2 = CallResult.ok okYieldsResponse :=
  ⟨rfl, rfl⟩

/-- Claim C6, amended: failures surface as the propagated error of the
failing step — spawn failure when the executable cannot be started,
write failure on the input stream, read/wait failure on the output
stream, parse failure on malformed output — but the child's exit status
is never inspected: the outcome is classified by the first failing step
alone and is unchanged under any exit code. -/
theorem c6_error_classification (os : OsBehavior) (path : String) (req : ShieldRequest) :
    ((call_shield os path req).2 =
      if os.spawnOk then
        if os.writeOk then
          if os.waitOk then
            match deserializeShieldResponse os.stdout with
            | Except.ok r => CallResult.ok r
            | Except.error _ => CallResult.errParse
          else CallResult.errWait
        else CallResult.errWrite
      else CallResult.errSpawn) ∧
    (∀ e : Int, call_shield { os with exitCode := e } path req = call_shield os path req) := by
  constructor
  · cases h1 : os.spawnOk <;> cases h2 : os.writeOk <;> cases h3 : os.waitOk <;>
      cases hd : deserializeShieldResponse os.stdout <;>
      simp [call_shield, h1, h2, h3, hd, spawnChildHandles]
  · intro e
    cases h1 : os.spawnOk <;> cases h2 : os.writeOk <;> cases h3 : os.waitOk <;>
      cases hd : deserializeShieldResponse os.stdout <;>
      simp [call_shield, h1, h2, h3, hd, spawnChildHandles]

/-- Claim C7: on the captured output
`\x7b"ok":true,"result":\x7b"yieldIds":["a","b"]\x7d\x7d` the codec
yields the decoded response whose result carries
`yieldIds = ["a","b"]` and whose error member is absent. -/
theorem c7_yields_success :
    deserializeShieldResponse "\x7b\"ok\":true,\"result\":\x7b\"yieldIds\":[\"a\",\"b\"]\x7d\x7d" =
      Except.ok { ok := true,
                  result := some { is_valid := none, reason := none,
                                   detected_type := none, yield_ids := some ["a", "b"] },
                  error := none } :=
  rfl

/-- Claim C8: the wire form is lower camel case both ways — serializing a
fully-populated request emits exactly the keys `apiVersion`, `operation`,
`yieldId`, `unsignedTransaction`, `userAddress`; deserializing a response
whose members use the camelCase keys (`isValid`, `detectedType`,
`yieldIds`, and the error payload's `code` / `message`) populates every
corresponding field, while a snake_case key (`is_valid`) is not accepted
for the typed field and is ignored as unknown. -/
theorem c8_camel_case_wire_form :
    (∀ (av op y u ua : String),
      objKeys (serializeShieldRequest
          { api_version := av, operation := op, yield_id := some y,
            unsigned_transaction := some u, user_address := some ua }) =
        ["apiVersion", "operation", "yieldId", "unsignedTransaction", "userAddress"]) ∧
    deserializeShieldResponse
        "\x7b\"ok\":true,\"result\":\x7b\"isValid\":true,\"reason\":\"r\",\"detectedType\":\"t\",\"yieldIds\":[\"a\"]\x7d\x7d" =
      Except.ok { ok := true,
                  result := some { is_valid := some true, reason := some "r",
                                   detected_type := some "t", yield_ids := some ["a"] },
                  error := none } ∧
    deserializeShieldResponse "\x7b\"ok\":true,\"result\":\x7b\"is_valid\":true\x7d\x7d" =
      Except.ok { ok := true,
                  result := some { is_valid := none, reason := none,
                                   detected_type := none, yield_ids := none },
                  error := none } ∧
    deserializeShieldResponse "\x7b\"ok\":false,\"error\":\x7b\"code\":\"E\",\"message\":\"m\"\x7d\x7d" =
      Except.ok { ok := false, result := none,
                  error := some { code := "E", message := "m" } } := by
  refine ⟨?_, rfl, rfl, rfl⟩
  intro av op y u ua
  rfl

/-- Claim C9, counterexample: with a child that runs for a billion time
units, the call is not terminated (no kill event ever appears in the
trace) and its fully-buffered output is still parsed into a success —
there is no timeout and no `TransportFailure`. -/
theorem c9_counterexample :
    osSlowChild.duration = 1000000000 ∧
    traceHasKill (call_shield osSlowChild "./shield" reqGetYields).1 = false ∧
    (call_shield osSlowChild "./shield" reqGetYields).2 = CallResult.ok okYieldsResponse :=
  ⟨rfl, rfl, rfl⟩

/-- Claim C9, amended: the call takes no timeout and enforces none — the
child is never forcibly terminated, and the entire call (trace and
outcome) is independent of how long the child runs; output is parsed only
after the child exits on its own. -/
theorem c9_no_timeout (os : OsBehavior) (path : String) (req : ShieldRequest) :
    traceHasKill (call_shield os path req).1 = false ∧
    (∀ d : Nat, call_shield { os with duration := d } path req = call_shield os path req) := by
  constructor
  · cases h1 : os.spawnOk <;> cases h2 : os.writeOk <;> cases h3 : os.waitOk <;>
      cases hd : deserializeShieldResponse os.stdout <;>
      simp [call_shield, h1, h2, h3, hd, spawnChildHandles, traceHasKill]
  · intro d
    cases h1 : os.spawnOk <;> cases h2 : os.writeOk <;> cases h3 : os.waitOk <;>
      cases hd : deserializeShieldResponse os.stdout <;>
      simp [call_shield, h1, h2, h3, hd, spawnChildHandles]

/-- Claim C10: the `unwrap` of the child's stdin handle can never panic:
stdin is configured as a pipe at spawn time, so the handle is present on
every successful spawn, and no execution of the call ends in the panic
outcome. -/
theorem c10_stdin_unwrap_safe (os : OsBehavior) (path : String) (req : ShieldRequest) :
    ((call_shield os path req).2).isPanicked = false ∧
    (spawnChildHandles PipeConfig.piped PipeConfig.piped).stdin.isSome = true := by
  refine ⟨?_, rfl⟩
  cases h1 : os.spawnOk <;> cases h2 : os.writeOk <;> cases h3 : os.waitOk <;>
    cases hd : deserializeShieldResponse os.stdout <;>
    simp [call_shield, h1, h2, h3, hd, spawnChildHandles, CallResult.isPanicked]
